import Mathlib

/-!
Verification of the portfolio site's client-side controller
(`src/js/main.js`, classes `PortfolioSite` and `AnimationObserver`).

The JavaScript is shallowly embedded: each method becomes a Lean function
over an explicit state record; platform inputs (local storage, the browser
locale, fetch outcomes, intersection notifications) become function
arguments.  JS truthiness on strings is modelled explicitly: `null`
(here `Option.none`) and the empty string are falsy, every other string is
truthy.
-/

namespace Portfolio

/-- Characters of a string up to (excluding) the first `'-'`; embeds the
JavaScript idiom `s.split('-')[0]`. -/
def takeBeforeDash : List Char → List Char
  | [] => []
  | c :: cs => if c = '-' then [] else c :: takeBeforeDash cs

/-- `navigator.language.split('-')[0]` from `handleInitialLanguage`
(main.js line 150): the browser's primary locale subtag. -/
def browserPrimarySubtag (navLanguage : String) : String :=
  String.mk (takeBeforeDash navLanguage.data)

/-- `['en', 'fr'].includes(s)` (main.js line 154). -/
def includesEnFr (s : String) : Bool :=
  s = "en" || s = "fr"

/-- The language-resolution logic of `handleInitialLanguage`
(main.js lines 148-160): computes the `initialLang` value that is then
passed to `switchLanguage`.  `storedLang` is
`localStorage.getItem('preferredLanguage')` (`none` = key absent); the
guard `storedLang && [...].includes(storedLang)` tests JS truthiness of
the stored string first. -/
def handleInitialLanguage (storedLang : Option String) (navLanguage : String) : String :=
  let browserLang := browserPrimarySubtag navLanguage
  match storedLang with
  | some s =>
      if s ≠ "" && includesEnFr s then s
      else if browserLang = "fr" then browserLang
      else "en"
  | none =>
      if browserLang = "fr" then browserLang
      else "en"

/-- A localized text value (`LocalizedText` in the spec): either a plain
string or a JS object mapping language codes to strings, modelled as an
association list (JS object property lookup = first matching key). -/
inductive LocalizedText where
  | str (s : String)
  | map (entries : List (String × String))
deriving DecidableEq

/-- Property lookup `obj[key]` on the object form of a `LocalizedText`:
`none` when the key is absent (JS `undefined`). -/
def jsLookup (entries : List (String × String)) (key : String) : Option String :=
  (entries.find? (fun p => p.1 = key)).map (fun p => p.2)

/-- JS `a || b` where `a` is a property lookup result and `b` a string:
returns `a` when it is truthy (present and non-empty), else `b`. -/
def jsOrStr (a : Option String) (b : String) : String :=
  match a with
  | some v => if v = "" then b else v
  | none => b

/-- `getTranslatedText` (main.js lines 309-312):
`typeof text === 'string' ? text : (text[lang] || text.en || '')`. -/
def getTranslatedText (lang : String) : LocalizedText → String
  | .str s => s
  | .map entries => jsOrStr (jsLookup entries lang) (jsOrStr (jsLookup entries "en") "")

end Portfolio

namespace Portfolio

/-- C1: `handleInitialLanguage` returns the stored preference when it is
exactly `"en"` or `"fr"`; for every other stored value (including an
absent key) it returns `"fr"` iff the browser's primary locale subtag is
exactly `"fr"`, and `"en"` otherwise.  Determinism in the pair
(storedValue, browserLocale) is inherent in the embedding as a function
of exactly those two arguments. -/
theorem handleInitialLanguage_spec (stored : Option String) (nav : String) :
    ((stored = some "en" ∨ stored = some "fr") →
      handleInitialLanguage stored nav = stored.getD "en") ∧
    ((stored ≠ some "en" ∧ stored ≠ some "fr") →
      handleInitialLanguage stored nav =
        if browserPrimarySubtag nav = "fr" then "fr" else "en") := by
  constructor
  · rintro (rfl | rfl) <;> simp [handleInitialLanguage, includesEnFr]
  · rintro ⟨hen, hfr⟩
    by_cases hb : browserPrimarySubtag nav = "fr"
    · match stored with
      | none => simp [handleInitialLanguage, hb]
      | some s =>
          have hs1 : s ≠ "en" := fun h => hen (by rw [h])
          have hs2 : s ≠ "fr" := fun h => hfr (by rw [h])
          simp [handleInitialLanguage, includesEnFr, hs1, hs2, hb]
    · match stored with
      | none => simp [handleInitialLanguage, hb]
      | some s =>
          have hs1 : s ≠ "en" := fun h => hen (by rw [h])
          have hs2 : s ≠ "fr" := fun h => hfr (by rw [h])
          simp [handleInitialLanguage, includesEnFr, hs1, hs2, hb]

/-- Witness for C1 at concrete inputs: a valid stored value wins; an
invalid stored value falls back to the browser subtag; an absent key with
a non-French browser yields `"en"`. -/
theorem handleInitialLanguage_spec_witness :
    handleInitialLanguage (some "fr") "en-US" = "fr" ∧
    handleInitialLanguage (some "de") "fr-CA" = "fr" ∧
    handleInitialLanguage none "en-GB" = "en" := by
  refine ⟨?_, ?_, ?_⟩
  · have h := (handleInitialLanguage_spec (some "fr") "en-US").1 (Or.inr rfl)
    simpa using h
  · have h := (handleInitialLanguage_spec (some "de") "fr-CA").2 (by decide)
    rw [h]; decide
  · have h := (handleInitialLanguage_spec none "en-GB").2 (by decide)
    rw [h]; decide

/-- C6: `getTranslatedText` on `{en: "A"}` under active language `fr`
returns `"A"` (English fallback); on `{en: "A", fr: "B"}` under `fr` it
returns `"B"`; and on a plain string it returns that string unchanged. -/
theorem getTranslatedText_cases :
    getTranslatedText "fr" (.map [("en", "A")]) = "A" ∧
    getTranslatedText "fr" (.map [("en", "A"), ("fr", "B")]) = "B" ∧
    ∀ (lang s : String), getTranslatedText lang (.str s) = s := by
  refine ⟨by decide, by decide, fun _ _ => rfl⟩

/-- C10: on an object (non-string) input, `getTranslatedText` returns the
active-language entry when it is a non-empty string; otherwise the `en`
entry when that is a non-empty string; otherwise the empty string.  In
particular it is total, and an empty-string entry for the active language
is skipped in favour of `en` (truthiness, not presence). -/
theorem getTranslatedText_map_spec (lang : String) (entries : List (String × String)) :
    (∀ v, jsLookup entries lang = some v → v ≠ "" →
      getTranslatedText lang (.map entries) = v) ∧
    ((jsLookup entries lang = none ∨ jsLookup entries lang = some "") →
      ∀ w, jsLookup entries "en" = some w → w ≠ "" →
        getTranslatedText lang (.map entries) = w) ∧
    ((jsLookup entries lang = none ∨ jsLookup entries lang = some "") →
      (jsLookup entries "en" = none ∨ jsLookup entries "en" = some "") →
        getTranslatedText lang (.map entries) = "") := by
  refine ⟨?_, ?_, ?_⟩
  · intro v hv hne
    simp [getTranslatedText, hv, jsOrStr, hne]
  · rintro (h | h) w hw hne <;>
      simp [getTranslatedText, h, hw, jsOrStr, hne]
  · rintro (h | h) (h2 | h2) <;>
      simp [getTranslatedText, h, h2, jsOrStr]

/-- Witness for C10: an empty-string `fr` entry is skipped in favour of
the `en` entry; a mapping missing both entries yields the empty string. -/
theorem getTranslatedText_map_spec_witness :
    getTranslatedText "fr" (.map [("fr", ""), ("en", "X")]) = "X" ∧
    getTranslatedText "fr" (.map [("de", "Y")]) = "" := by
  constructor
  · exact (getTranslatedText_map_spec "fr" [("fr", ""), ("en", "X")]).2.1
      (Or.inr (by decide)) "X" (by decide) (by decide)
  · exact (getTranslatedText_map_spec "fr" [("de", "Y")]).2.2
      (Or.inl (by decide)) (Or.inl (by decide))

/-! ## Blog posts: fetching and rendering -/

/-- A blog post as consumed by the renderer (fields `id`, `tags`,
`published` exist in the schema but are never read by the rendering code,
so they are omitted from the embedding).  `readTime` is `none` when the
field is absent from the JSON object. -/
structure BlogPost where
  title : LocalizedText
  excerpt : LocalizedText
  date : String
  url : String
  readTime : Option Nat
deriving DecidableEq

/-- `` `• ${post.readTime} min read` `` when `post.readTime` is truthy,
else the empty string (main.js lines 237 and 295).  A JS number is truthy
iff it is non-zero, and an absent field (`undefined`) is falsy. -/
def readTimeSuffix : Option Nat → String
  | some n => if n ≠ 0 then "• " ++ toString n ++ " min read" else ""
  | none => ""

/-- The locale string passed to `toLocaleDateString` by `formatDate`
(main.js line 327). -/
def localeFor (lang : String) : String :=
  if lang = "fr" then "fr-FR" else "en-US"

/-- One rendered `<article class="blog-post">` card (main.js lines
228-243 / 286-301), represented structurally.  The formatted date text is
produced by the platform's `Date.toLocaleDateString`, which is external;
the card records the arguments passed to it (`dateLocale`, `dateAttr`).
`newTab` records whether the title link carries
`target="_blank" rel="noopener noreferrer"`. -/
structure RenderedCard where
  titleText : String
  url : String
  newTab : Bool
  dateAttr : String
  dateLocale : String
  metaSuffix : String
  excerptText : String
deriving DecidableEq

/-- The card template of `renderBlogPosts` (main.js lines 228-243):
title link opens in a new tab. -/
def renderCard (lang : String) (p : BlogPost) : RenderedCard :=
  { titleText := getTranslatedText lang p.title
    url := p.url
    newTab := true
    dateAttr := p.date
    dateLocale := localeFor lang
    metaSuffix := readTimeSuffix p.readTime
    excerptText := getTranslatedText lang p.excerpt }

/-- The card template of `renderBlogPlaceholder` (main.js lines 286-301):
identical except the title link has no `target="_blank"`. -/
def renderPlaceholderCard (lang : String) (p : BlogPost) : RenderedCard :=
  { renderCard lang p with newTab := false }

/-- The three built-in placeholder posts of `renderBlogPlaceholder`
(main.js lines 253-284). -/
def placeholderPosts : List BlogPost :=
  [ { title := .map [("en", "Getting Started with Modern Web Development"),
                     ("fr", "Débuter avec le Développement Web Moderne")]
      date := "2024-01-15"
      excerpt := .map [("en", "A comprehensive guide to modern web development tools and practices that every developer should know."),
                       ("fr", "Un guide complet des outils et pratiques de développement web moderne que tout développeur devrait connaître.")]
      url := "#"
      readTime := some 5 },
    { title := .map [("en", "Building Scalable React Applications"),
                     ("fr", "Construire des Applications React Évolutives")]
      date := "2024-01-08"
      excerpt := .map [("en", "Learn best practices for building React applications that scale with your business needs."),
                       ("fr", "Apprenez les meilleures pratiques pour construire des applications React qui évoluent avec vos besoins commerciaux.")]
      url := "#"
      readTime := some 8 },
    { title := .map [("en", "The Future of JavaScript"),
                     ("fr", "L\u0027Avenir de JavaScript")]
      date := "2024-01-01"
      excerpt := .map [("en", "Exploring upcoming JavaScript features and how they will change the way we write code."),
                       ("fr", "Explorer les fonctionnalités JavaScript à venir et comment elles changeront notre façon d\u0027écrire du code.")]
      url := "#"
      readTime := some 6 } ]

/-- `renderBlogPlaceholder` (main.js lines 249-302), with the `#blog-posts`
container present: the container's content becomes the three placeholder
cards. -/
def renderBlogPlaceholder (lang : String) : List RenderedCard :=
  placeholderPosts.map (renderPlaceholderCard lang)

/-- `renderBlogPosts` (main.js lines 216-244), with the `#blog-posts`
container present: an empty `this.blogPosts` delegates to
`renderBlogPlaceholder`; otherwise `this.blogPosts.slice(0, 3)` is
rendered. -/
def renderBlogPosts (lang : String) (blogPosts : List BlogPost) : List RenderedCard :=
  if blogPosts.length = 0 then renderBlogPlaceholder lang
  else (blogPosts.take 3).map (renderCard lang)

/-- The body of a fetched `posts.json` once parsed: the `posts` field is
`none` when absent (`data.posts || []` then defaults it). -/
structure PostsData where
  posts : Option (List BlogPost)
deriving DecidableEq

/-- Outcome of the single `fetch('blog/posts.json')` in `loadBlogPosts`:
either the promise rejects (network error), or a response arrives with an
HTTP status and a body that parses to `PostsData` or fails to parse
(`body = none`, making `response.json()` throw). -/
inductive FetchResult where
  | failure
  | response (status : Nat) (body : Option PostsData)
deriving DecidableEq

/-- `response.ok`: status in the inclusive range 200-299. -/
def responseOk (status : Nat) : Bool :=
  200 ≤ status && status ≤ 299

/-- The observable result of `loadBlogPosts`: the stored `this.blogPosts`,
the cards placed in the container, whether `console.warn` fired, and how
many fetches were issued (always one — the method never retries). -/
structure LoadResult where
  blogPosts : List BlogPost
  rendered : List RenderedCard
  warned : Bool
  fetchAttempts : Nat
deriving DecidableEq

/-- `loadBlogPosts` (main.js lines 197-211).  A non-ok status throws
before the body is read; a malformed body makes `response.json()` throw;
both land in the `catch` together with a network failure, which warns and
renders the placeholder.  On success `this.blogPosts = data.posts || []`
and `renderBlogPosts` runs. -/
def loadBlogPosts (lang : String) : FetchResult → LoadResult
  | .failure =>
      { blogPosts := [], rendered := renderBlogPlaceholder lang
        warned := true, fetchAttempts := 1 }
  | .response status body =>
      if responseOk status then
        match body with
        | some data =>
            { blogPosts := data.posts.getD []
              rendered := renderBlogPosts lang (data.posts.getD [])
              warned := false, fetchAttempts := 1 }
        | none =>
            { blogPosts := [], rendered := renderBlogPlaceholder lang
              warned := true, fetchAttempts := 1 }
      else
        { blogPosts := [], rendered := renderBlogPlaceholder lang
          warned := true, fetchAttempts := 1 }

/-- A fetch outcome that is a failure in the sense of the error-handling
design: network error, non-2xx status, or malformed JSON. -/
def FetchFailed : FetchResult → Prop
  | .failure => True
  | .response status body => responseOk status = false ∨ body = none

/-- C2: on every failing fetch outcome (network error, non-2xx status, or
malformed JSON), `loadBlogPosts` warns, issues no retry (exactly one fetch
attempt), and the blog container ends up containing exactly the 3
built-in placeholder posts. -/
theorem loadBlogPosts_failure_spec (lang : String) (r : FetchResult)
    (h : FetchFailed r) :
    (loadBlogPosts lang r).warned = true ∧
    (loadBlogPosts lang r).fetchAttempts = 1 ∧
    (loadBlogPosts lang r).rendered = renderBlogPlaceholder lang ∧
    (loadBlogPosts lang r).rendered.length = 3 := by
  have hlen : (renderBlogPlaceholder lang).length = 3 := by
    simp [renderBlogPlaceholder, placeholderPosts]
  cases r with
  | failure => exact ⟨rfl, rfl, rfl, hlen⟩
  | response status body =>
      rcases h with h | h
      · simp [loadBlogPosts, h, hlen]
      · subst h
        by_cases hok : responseOk status <;> simp [loadBlogPosts, hok, hlen]

/-- Witness for C2 at a concrete failing outcome: an HTTP 404 carrying a
well-formed body still renders the 3 placeholder posts with a warning. -/
theorem loadBlogPosts_failure_spec_witness :
    (loadBlogPosts "en" (.response 404 (some { posts := some [] }))).warned = true ∧
    (loadBlogPosts "en" (.response 404 (some { posts := some [] }))).fetchAttempts = 1 ∧
    (loadBlogPosts "en" (.response 404 (some { posts := some [] }))).rendered
      = renderBlogPlaceholder "en" ∧
    (loadBlogPosts "en" (.response 404 (some { posts := some [] }))).rendered.length = 3 :=
  loadBlogPosts_failure_spec "en" (.response 404 (some { posts := some [] }))
    (Or.inl (by decide))

/-- C3 counterexample: a successful fetch whose `posts` list is empty does
not render zero cards — the stored list is empty, yet the container is
non-empty (it holds the placeholder cards). -/
theorem loadBlogPosts_empty_counterexample :
    (loadBlogPosts "en" (.response 200 (some { posts := some [] }))).blogPosts = [] ∧
    (loadBlogPosts "en" (.response 200 (some { posts := some [] }))).rendered.length ≠ 0 := by
  exact ⟨rfl, by decide⟩

/-- C3 as amended: on a successful fetch (2xx and valid JSON),
`loadBlogPosts` stores the `posts` list (defaulting to the empty sequence
when the field is absent); when the stored list is non-empty it renders
its first up-to-3 entries, and when it is empty it renders the 3
placeholder posts instead of zero cards. -/
theorem loadBlogPosts_success_spec (lang : String) (status : Nat) (data : PostsData)
    (hok : responseOk status = true) :
    (loadBlogPosts lang (.response status (some data))).blogPosts = data.posts.getD [] ∧
    (data.posts.getD [] ≠ [] →
      (loadBlogPosts lang (.response status (some data))).rendered
        = ((data.posts.getD []).take 3).map (renderCard lang)) ∧
    (data.posts.getD [] = [] →
      (loadBlogPosts lang (.response status (some data))).rendered
        = renderBlogPlaceholder lang) := by
  refine ⟨by simp [loadBlogPosts, hok], ?_, ?_⟩
  · intro hne
    have h0 : (data.posts.getD []).length ≠ 0 := by
      simpa [List.length_eq_zero] using hne
    simp [loadBlogPosts, hok, renderBlogPosts, h0]
  · intro hE
    simp [loadBlogPosts, hok, renderBlogPosts, hE]

/-- A concrete post used by witnesses. -/
def wpost : BlogPost :=
  { title := .str "W", excerpt := .str "w", date := "2024-02-02",
    url := "https://example.org/w", readTime := some 4 }

/-- Witness for C3 (amended) at a concrete successful outcome with one
post: it is stored and rendered. -/
theorem loadBlogPosts_success_spec_witness :
    (loadBlogPosts "en" (.response 200 (some { posts := some [wpost] }))).blogPosts
      = [wpost] ∧
    (loadBlogPosts "en" (.response 200 (some { posts := some [wpost] }))).rendered
      = ([wpost].take 3).map (renderCard "en") := by
  have h := loadBlogPosts_success_spec "en" 200 { posts := some [wpost] } (by decide)
  exact ⟨h.1, h.2.1 (by decide)⟩

/-- C4 counterexample: on the empty input list `renderBlogPosts` renders 3
cards, not `min 0 3 = 0` of them. -/
theorem renderBlogPosts_empty_counterexample :
    (renderBlogPosts "en" []).length = 3 ∧
    (renderBlogPosts "en" []).length ≠ min (List.length ([] : List BlogPost)) 3 := by
  exact ⟨by decide, by decide⟩

/-- C4 as amended: for every non-empty input list, `renderBlogPosts`
renders exactly `min length 3` cards and they are the first up-to-3 posts
in source order; the empty list instead yields the 3 placeholder cards. -/
theorem renderBlogPosts_take3 (lang : String) (blogPosts : List BlogPost)
    (h : blogPosts ≠ []) :
    renderBlogPosts lang blogPosts = (blogPosts.take 3).map (renderCard lang) ∧
    (renderBlogPosts lang blogPosts).length = min blogPosts.length 3 := by
  have h0 : blogPosts.length ≠ 0 := by
    simpa [List.length_eq_zero] using h
  constructor
  · simp [renderBlogPosts, h0]
  · simp [renderBlogPosts, h0, List.length_take]
    omega

/-- A simple numbered post used to build witness lists. -/
def samplePost (i : Nat) : BlogPost :=
  { title := .str ("Post " ++ toString i), excerpt := .str ("Excerpt " ++ toString i),
    date := "2024-03-01", url := "#", readTime := some i }

/-- Ten posts, the witness input the spec itself mentions. -/
def tenPosts : List BlogPost := (List.range 10).map samplePost

/-- Witness for C4 (amended): an input of 10 posts yields exactly 3 cards,
the first 3 in source order. -/
theorem renderBlogPosts_take3_witness :
    renderBlogPosts "en" tenPosts = (tenPosts.take 3).map (renderCard "en") ∧
    (renderBlogPosts "en" tenPosts).length = 3 := by
  have h := renderBlogPosts_take3 "en" tenPosts (by decide)
  refine ⟨h.1, ?_⟩
  rw [h.2]
  decide

/-- A post whose `readTime` field is present with value 0. -/
def zeroReadTimePost : BlogPost :=
  { title := .str "Z", excerpt := .str "z", date := "2024-04-04",
    url := "#", readTime := some 0 }

/-- C7 counterexample: `readTime` present with value 0 yields no
`• 0 min read` suffix — the card's meta suffix is empty although the field
is present (the template tests JS truthiness, and the number 0 is falsy). -/
theorem readTime_zero_counterexample :
    zeroReadTimePost.readTime = some 0 ∧
    (renderCard "en" zeroReadTimePost).metaSuffix = "" ∧
    (renderCard "en" zeroReadTimePost).metaSuffix ≠ "• 0 min read" := by
  exact ⟨rfl, rfl, by decide⟩

/-- C7 as amended: the rendered card's meta line carries the
`• N min read` suffix with `N` the value of `readTime` exactly when the
field is present and non-zero; an absent field or a value of 0 yields no
suffix. -/
theorem renderCard_readTime_spec (lang : String) (p : BlogPost) :
    (∀ n : Nat, p.readTime = some n → n ≠ 0 →
      (renderCard lang p).metaSuffix = "• " ++ toString n ++ " min read") ∧
    ((p.readTime = none ∨ p.readTime = some 0) →
      (renderCard lang p).metaSuffix = "") := by
  constructor
  · intro n hn hne
    simp [renderCard, readTimeSuffix, hn, hne]
  · rintro (h | h) <;> simp [renderCard, readTimeSuffix, h]

/-- A post with a positive read time, for the C7 witness. -/
def sevenPost : BlogPost :=
  { title := .str "A", excerpt := .str "a", date := "2024-05-05",
    url := "#", readTime := some 7 }

/-- A post with no read time field, for the C7 witness. -/
def noReadTimePost : BlogPost :=
  { title := .str "B", excerpt := .str "b", date := "2024-05-06",
    url := "#", readTime := none }

/-- Witness for C7 (amended): read time 7 yields the suffix, an absent
read time yields none. -/
theorem renderCard_readTime_spec_witness :
    (renderCard "en" sevenPost).metaSuffix = "• " ++ toString 7 ++ " min read" ∧
    (renderCard "en" noReadTimePost).metaSuffix = "" :=
  ⟨(renderCard_readTime_spec "en" sevenPost).1 7 rfl (by decide),
   (renderCard_readTime_spec "en" noReadTimePost).2 (Or.inl rfl)⟩

/-! ## The view controller as a state machine

`PortfolioSite` owns `currentLanguage` and the mobile-nav flag and
mediates all DOM writes; the state record below holds those fields
together with the DOM and storage locations the class writes.
`storageWrites` counts `localStorage.setItem` calls, so that "performs no
storage write" is expressible, not merely "the stored value is
unchanged". -/

/-- A `.lang-btn` element: its `data-lang` attribute and whether it
carries the `active` class. -/
structure LangBtn where
  dataLang : String
  active : Bool
deriving DecidableEq

/-- An element matched by `[data-en], [data-fr]`: its two optional
translation attributes and its current text content. -/
structure TransElem where
  dataEn : Option String
  dataFr : Option String
  text : String
deriving DecidableEq

/-- An element carrying `data-en-placeholder` / `data-fr-placeholder`
attributes and a `placeholder` property. -/
structure PhElem where
  phEn : Option String
  phFr : Option String
  placeholder : String
deriving DecidableEq

/-- The state owned or written by `PortfolioSite`: its in-memory fields
(`currentLanguage`, `mobileNavOpen`), the one storage key, and the DOM
locations its methods assign.  `metaDesc = none` models an absent
`meta[name="description"]` element (checked and skipped). -/
structure SiteState where
  currentLanguage : String
  storedPref : Option String
  storageWrites : Nat
  docLang : String
  docTitle : String
  metaDesc : Option String
  langButtons : List LangBtn
  transElems : List TransElem
  phElems : List PhElem
  mobileNavOpen : Bool
  navAriaExpanded : String
  navMenuActive : Bool
  bodyOverflow : String
  headerBg : String
  submitLabel : String
  submitDisabled : Bool
  submitLoading : Bool
  submitSaved : Option String
deriving DecidableEq

/-- The `titles` map of `updateTranslations` (main.js lines 128-131);
`none` for a key the object does not have (JS `undefined`). -/
def titles (lang : String) : Option String :=
  if lang = "en" then some "Tom S. - Software Engineer"
  else if lang = "fr" then some "Tom S. - Ingénieur Logiciel"
  else none

/-- The `descriptions` map of `updateTranslations` (main.js lines
135-138). -/
def descriptions (lang : String) : Option String :=
  if lang = "en" then
    some "Tom S. - Software Engineer Portfolio. Explore my projects, blog posts, and get in touch."
  else if lang = "fr" then
    some "Tom S. - Portfolio d'Ingénieur Logiciel. Explorez mes projets, articles de blog et contactez-moi."
  else none

/-- `element.dataset[lang]` on a translated element: the element records
only `data-en` and `data-fr`; any other language key is absent. -/
def TransElem.datasetGet (e : TransElem) (lang : String) : Option String :=
  if lang = "en" then e.dataEn else if lang = "fr" then e.dataFr else none

/-- The per-element body of the first loop of `updateTranslations`
(main.js lines 111-116): write the translation into `textContent` when it
is truthy. -/
def transElemUpdate (lang : String) (e : TransElem) : TransElem :=
  match e.datasetGet lang with
  | some v => if v = "" then e else { e with text := v }
  | none => e

/-- `element.dataset[lang + "Placeholder"]` on a placeholder-bearing
element. -/
def PhElem.datasetGet (e : PhElem) (lang : String) : Option String :=
  if lang = "en" then e.phEn else if lang = "fr" then e.phFr else none

/-- The per-element body of the placeholder loop of `updateTranslations`
(main.js lines 119-125): the selector picks elements having the
attribute, and a truthy value is written into `placeholder`. -/
def phElemUpdate (lang : String) (e : PhElem) : PhElem :=
  match e.datasetGet lang with
  | some v => if v = "" then e else { e with placeholder := v }
  | none => e

/-- `updateTranslations` (main.js lines 108-143): rewrites translated
elements and placeholders, the document title, and the meta description
(when that element exists) from `currentLanguage`.  Assigning a JS
`undefined` map entry to `document.title` would yield the string
`"undefined"`, hence the `getD`. -/
def updateTranslations (s : SiteState) : SiteState :=
  { s with
    transElems := s.transElems.map (transElemUpdate s.currentLanguage)
    phElems := s.phElems.map (phElemUpdate s.currentLanguage)
    docTitle := (titles s.currentLanguage).getD "undefined"
    metaDesc := s.metaDesc.map (fun _ => (descriptions s.currentLanguage).getD "undefined") }

/-- `switchLanguage` (main.js lines 84-103): early return when `lang` is
already active; otherwise set `currentLanguage`, retarget the `active`
class on every language button, re-render translations, persist the
preference (one storage write) and set the document's `lang` attribute. -/
def switchLanguage (s : SiteState) (lang : String) : SiteState :=
  if lang = s.currentLanguage then s
  else
    { updateTranslations
        { s with
          currentLanguage := lang
          langButtons := s.langButtons.map
            (fun b => { b with active := b.dataLang == lang }) } with
      storedPref := some lang
      storageWrites := s.storageWrites + 1
      docLang := lang }

/-- `toggleMobileNav` (main.js lines 166-177). -/
def toggleMobileNav (s : SiteState) : SiteState :=
  let opened := !s.mobileNavOpen
  { s with mobileNavOpen := opened
           navAriaExpanded := toString opened
           navMenuActive := opened
           bodyOverflow := if opened then "hidden" else "" }

/-- `closeMobileNav` (main.js lines 182-192): no-op when already closed. -/
def closeMobileNav (s : SiteState) : SiteState :=
  if !s.mobileNavOpen then s
  else
    { s with mobileNavOpen := false
             navAriaExpanded := "false"
             navMenuActive := false
             bodyOverflow := "" }

/-- `handleHeaderScroll` (main.js lines 401-408). -/
def handleHeaderScroll (s : SiteState) (scrollY : Nat) : SiteState :=
  { s with headerBg :=
      if 100 < scrollY then "rgba(255, 255, 255, 0.98)"
      else "rgba(255, 255, 255, 0.95)" }

/-- `handleFormSubmission` (main.js lines 335-353), up to the timer:
capture the original label, show the localized sending label, disable. -/
def handleFormSubmission (s : SiteState) : SiteState :=
  { s with submitLoading := true
           submitDisabled := true
           submitSaved := some s.submitLabel
           submitLabel := if s.currentLanguage = "fr" then "Envoi..." else "Sending..." }

/-- The `setTimeout` continuation of `handleFormSubmission` (main.js lines
348-352): restore the captured label and re-enable.  One pending timer is
modelled. -/
def formTimerRestore (s : SiteState) : SiteState :=
  { s with submitLoading := false
           submitDisabled := false
           submitLabel := s.submitSaved.getD s.submitLabel
           submitSaved := none }

/-- The user-input events wired by `setupEventListeners` (main.js lines
29-78), each carrying what the handler reads from the DOM event: the
index of the clicked language button, whether a document click landed
inside the nav, the pressed key, an anchor's `href` and whether its
target element exists, the scroll offset.  The smooth-scroll handler's
scrolling and history effects fall outside `SiteState`; its
`closeMobileNav` call is retained. -/
inductive Event where
  | langClick (i : Nat)
  | navToggleClick
  | navLinkClick
  | outsideClick (insideNav : Bool)
  | keydown (key : String)
  | anchorClick (href : String) (targetExists : Bool)
  | scroll (y : Nat)
  | formSubmit
  | formTimer
deriving DecidableEq

/-- Dispatch of one event to its wired handler (main.js lines 29-78):
a language button click passes that button's `data-lang` to
`switchLanguage`; the document-level click and keydown handlers guard on
`mobileNavOpen` before closing. -/
def step (s : SiteState) : Event → SiteState
  | .langClick i =>
      match s.langButtons[i]? with
      | some b => switchLanguage s b.dataLang
      | none => s
  | .navToggleClick => toggleMobileNav s
  | .navLinkClick => closeMobileNav s
  | .outsideClick insideNav =>
      if s.mobileNavOpen && !insideNav then closeMobileNav s else s
  | .keydown key =>
      if key == "Escape" && s.mobileNavOpen then closeMobileNav s else s
  | .anchorClick href targetExists =>
      if href.startsWith "#" && targetExists then closeMobileNav s else s
  | .scroll y => handleHeaderScroll s y
  | .formSubmit => handleFormSubmission s
  | .formTimer => formTimerRestore s

/-- `handleInitialLanguage` in full (main.js lines 148-161): resolve the
initial language from storage and browser locale, then apply it. -/
def applyInitialLanguage (s : SiteState) (navLanguage : String) : SiteState :=
  switchLanguage s (handleInitialLanguage s.storedPref navLanguage)

/-- The language-relevant part of startup: the constructor sets
`currentLanguage = 'en'` and `mobileNavOpen = false` (main.js lines 7-13)
and `init` ends with `handleInitialLanguage` (line 23).  The other init
steps (event wiring, the asynchronous post load, the copyright-year
rewrite, smooth-scroll setup) write none of the language state; the
element lists of `s0` are arbitrary, covering whatever those steps left. -/
def initState (s0 : SiteState) (navLanguage : String) : SiteState :=
  applyInitialLanguage
    { s0 with currentLanguage := "en", mobileNavOpen := false } navLanguage

/-- A sequence of wired events processed in order (single-threaded,
cooperative). -/
def run (s : SiteState) (events : List Event) : SiteState :=
  events.foldl step s

/-- Every state the controller reaches: startup followed by any sequence
of wired events. -/
def reachable (s0 : SiteState) (navLanguage : String) (events : List Event) : SiteState :=
  run (initState s0 navLanguage) events

/-- Modelled from the spec: the page markup is not among the repository
files under verification, so the `data-lang` values carried by the
`.lang-btn` elements are taken from the spec's DOM contract ("language
buttons (carrying a language-code attribute)") with the language set
fixed to en, fr (**LanguagePreference**): every wired language button
carries `"en"` or `"fr"`. -/
def ButtonsValid (s : SiteState) : Prop :=
  ∀ b ∈ s.langButtons, b.dataLang = "en" ∨ b.dataLang = "fr"

/-- The language component of the spec's invariant. -/
def LangOK (s : SiteState) : Prop :=
  s.currentLanguage = "en" ∨ s.currentLanguage = "fr"

/-- The resolved initial language is always a member of the language
set. -/
theorem handleInitialLanguage_mem (stored : Option String) (nav : String) :
    handleInitialLanguage stored nav = "en" ∨ handleInitialLanguage stored nav = "fr" := by
  match stored with
  | none =>
      by_cases hb : browserPrimarySubtag nav = "fr" <;>
        simp [handleInitialLanguage, hb]
  | some s =>
      by_cases h1 : s = "en"
      · subst h1; simp [handleInitialLanguage, includesEnFr]
      · by_cases h2 : s = "fr"
        · subst h2; simp [handleInitialLanguage, includesEnFr]
        · by_cases hb : browserPrimarySubtag nav = "fr" <;>
            simp [handleInitialLanguage, includesEnFr, h1, h2, hb]

/-- `switchLanguage` always leaves `currentLanguage = lang` (it either was
already, or is set). -/
theorem switchLanguage_currentLanguage (s : SiteState) (lang : String) :
    (switchLanguage s lang).currentLanguage = lang := by
  unfold switchLanguage
  by_cases h : lang = s.currentLanguage <;> simp [h, updateTranslations]

/-- A switch that actually runs persists the preference and sets the
document language attribute. -/
theorem switchLanguage_persists (s : SiteState) (lang : String)
    (h : lang ≠ s.currentLanguage) :
    (switchLanguage s lang).storedPref = some lang ∧
    (switchLanguage s lang).docLang = lang := by
  unfold switchLanguage
  simp [h, updateTranslations]

/-- `switchLanguage` only toggles the `active` class on language buttons;
their `data-lang` attributes survive. -/
theorem switchLanguage_buttonsValid (s : SiteState) (lang : String)
    (h : ButtonsValid s) : ButtonsValid (switchLanguage s lang) := by
  unfold switchLanguage
  by_cases hc : lang = s.currentLanguage
  · simpa [hc] using h
  · intro b hb
    simp only [if_neg hc, updateTranslations] at hb
    rcases List.mem_map.1 hb with ⟨a, ha, rfl⟩
    exact h a ha

/-- One step preserves both halves of the invariant. -/
theorem step_invariant (s : SiteState) (e : Event)
    (hB : ButtonsValid s) (hL : LangOK s) :
    ButtonsValid (step s e) ∧ LangOK (step s e) := by
  cases e with
  | langClick i =>
      cases hg : s.langButtons[i]? with
      | none => simpa [step, hg] using ⟨hB, hL⟩
      | some b =>
          have hbm : b ∈ s.langButtons := List.getElem?_mem hg
          refine ⟨?_, ?_⟩
          · simpa [step, hg] using switchLanguage_buttonsValid s b.dataLang hB
          · show LangOK (step s (.langClick i))
            simp only [step, hg]
            unfold LangOK
            rw [switchLanguage_currentLanguage]
            exact hB b hbm
  | navToggleClick => exact ⟨hB, hL⟩
  | navLinkClick =>
      show ButtonsValid (closeMobileNav s) ∧ LangOK (closeMobileNav s)
      unfold closeMobileNav
      split <;> exact ⟨hB, hL⟩
  | outsideClick insideNav =>
      show ButtonsValid _ ∧ LangOK _
      simp only [step]
      split
      · unfold closeMobileNav; split <;> exact ⟨hB, hL⟩
      · exact ⟨hB, hL⟩
  | keydown key =>
      show ButtonsValid _ ∧ LangOK _
      simp only [step]
      split
      · unfold closeMobileNav; split <;> exact ⟨hB, hL⟩
      · exact ⟨hB, hL⟩
  | anchorClick href targetExists =>
      show ButtonsValid _ ∧ LangOK _
      simp only [step]
      split
      · unfold closeMobileNav; split <;> exact ⟨hB, hL⟩
      · exact ⟨hB, hL⟩
  | scroll y => exact ⟨hB, hL⟩
  | formSubmit => exact ⟨hB, hL⟩
  | formTimer => exact ⟨hB, hL⟩

/-- The invariant is preserved along any event sequence. -/
theorem run_invariant (s : SiteState) (events : List Event)
    (hB : ButtonsValid s) (hL : LangOK s) :
    ButtonsValid (run s events) ∧ LangOK (run s events) := by
  induction events generalizing s with
  | nil => exact ⟨hB, hL⟩
  | cons e es ih =>
      have h := step_invariant s e hB hL
      exact ih (step s e) h.1 h.2

/-- Startup establishes the invariant. -/
theorem initState_invariant (s0 : SiteState) (nav : String)
    (hB : ButtonsValid s0) :
    ButtonsValid (initState s0 nav) ∧ LangOK (initState s0 nav) := by
  constructor
  · exact switchLanguage_buttonsValid _ _ hB
  · show LangOK _
    unfold LangOK initState applyInitialLanguage
    rw [switchLanguage_currentLanguage]
    exact handleInitialLanguage_mem _ _

/-- C5: in every reachable state of the controller, `currentLanguage` is
`"en"` or `"fr"` (given the DOM contract that every wired language button
carries one of those two codes — the only arguments `switchLanguage` can
receive through its wired handlers); and every completed language switch
leaves both the stored preference and the document's `lang` attribute
equal to the new `currentLanguage`. -/
theorem controller_language_invariant (s0 : SiteState) (nav : String)
    (events : List Event) (hB : ButtonsValid s0) :
    ((reachable s0 nav events).currentLanguage = "en" ∨
     (reachable s0 nav events).currentLanguage = "fr") ∧
    (∀ lang, (lang = "en" ∨ lang = "fr") →
      lang ≠ (reachable s0 nav events).currentLanguage →
      (switchLanguage (reachable s0 nav events) lang).currentLanguage = lang ∧
      (switchLanguage (reachable s0 nav events) lang).storedPref
        = some (switchLanguage (reachable s0 nav events) lang).currentLanguage ∧
      (switchLanguage (reachable s0 nav events) lang).docLang
        = (switchLanguage (reachable s0 nav events) lang).currentLanguage) := by
  have hinit := initState_invariant s0 nav hB
  have hrun := run_invariant (initState s0 nav) events hinit.1 hinit.2
  constructor
  · exact hrun.2
  · intro lang _ hne
    have hcur := switchLanguage_currentLanguage (reachable s0 nav events) lang
    have hp := switchLanguage_persists (reachable s0 nav events) lang hne
    exact ⟨hcur, by rw [hcur]; exact hp.1, by rw [hcur]; exact hp.2⟩

/-- A concrete pair of language buttons for the C5 witness. -/
def witnessButtons : List LangBtn :=
  [{ dataLang := "en", active := true }, { dataLang := "fr", active := false }]

/-- A concrete full starting state for the C5 witness. -/
def witnessState : SiteState :=
  { currentLanguage := "en", storedPref := none, storageWrites := 0,
    docLang := "en", docTitle := "", metaDesc := none,
    langButtons := witnessButtons, transElems := [], phElems := [],
    mobileNavOpen := false, navAriaExpanded := "false", navMenuActive := false,
    bodyOverflow := "", headerBg := "", submitLabel := "Send",
    submitDisabled := false, submitLoading := false, submitSaved := none }

/-- Witness for C5: from a concrete fresh state, clicking the French
button reaches a state with a valid language, and a further completed
switch back to English leaves storage and document language equal to it. -/
theorem controller_language_invariant_witness :
    ((reachable witnessState "en-US" [Event.langClick 1]).currentLanguage = "en" ∨
     (reachable witnessState "en-US" [Event.langClick 1]).currentLanguage = "fr") ∧
    (switchLanguage (reachable witnessState "en-US" [Event.langClick 1]) "en").storedPref
      = some (switchLanguage
          (reachable witnessState "en-US" [Event.langClick 1]) "en").currentLanguage ∧
    (switchLanguage (reachable witnessState "en-US" [Event.langClick 1]) "en").docLang
      = (switchLanguage
          (reachable witnessState "en-US" [Event.langClick 1]) "en").currentLanguage := by
  have h := controller_language_invariant witnessState "en-US" [Event.langClick 1]
    (by unfold ButtonsValid; decide)
  exact ⟨h.1, (h.2 "en" (Or.inl rfl) (by decide)).2.1, (h.2 "en" (Or.inl rfl) (by decide)).2.2⟩

/-- C8: calling `switchLanguage` with the already-active language returns
the state unchanged — no storage write (the write counter is equal, not
merely the stored value), no DOM field mutated, every component exactly
as it was. -/
theorem switchLanguage_idempotent (s : SiteState) :
    switchLanguage s s.currentLanguage = s := by
  simp [switchLanguage]

/-! ## The reveal-on-scroll observer (`AnimationObserver`) -/

/-- One element watched for reveal-on-scroll: its inline styles and
whether the observer is currently watching it. -/
structure AnimElem where
  opacity : String
  transform : String
  transition : String
  watched : Bool
deriving DecidableEq

/-- The options passed to the IntersectionObserver constructor (main.js
lines 453-456): visibility threshold one tenth, a −50px bottom root
margin. -/
structure ObserverOptions where
  threshold : ℚ
  rootMargin : String
deriving DecidableEq

/-- `this.observerOptions` of `AnimationObserver` (main.js lines
453-456). -/
def observerOptions : ObserverOptions :=
  { threshold := 1 / 10, rootMargin := "0px 0px -50px 0px" }

/-- Per-element setup of `AnimationObserver.init` (main.js lines 477-482)
when reduced motion is not requested: hide and offset the element, then
begin watching it (`observer.observe`). -/
def observeElem (e : AnimElem) : AnimElem :=
  { e with opacity := "0"
           transform := "translateY(20px)"
           transition := "opacity 0.6s ease, transform 0.6s ease"
           watched := true }

/-- One intersection notification for an element
(`AnimationObserver.handleIntersection`, main.js lines 485-493).  The
platform delivers entries only for elements the observer currently
watches, and `unobserve` detaches the element — hence the outer guard;
the body is the source's: on `isIntersecting`, reveal the element and
unobserve it. -/
def handleIntersection (e : AnimElem) (isIntersecting : Bool) : AnimElem :=
  if e.watched then
    if isIntersecting then
      { e with opacity := "1", transform := "translateY(0)", watched := false }
    else e
  else e

/-- A sequence of visibility-crossing notifications for one element, in
order. -/
def runIntersections (e : AnimElem) (events : List Bool) : AnimElem :=
  events.foldl handleIntersection e

/-- A non-crossing notification never changes an element. -/
theorem handleIntersection_false (e : AnimElem) :
    handleIntersection e false = e := by
  unfold handleIntersection
  split <;> rfl

/-- Once unobserved, no notification changes the element. -/
theorem handleIntersection_unwatched (e : AnimElem) (b : Bool)
    (h : e.watched = false) : handleIntersection e b = e := by
  simp [handleIntersection, h]

/-- Once unobserved, no sequence of notifications changes the element. -/
theorem runIntersections_unwatched (e : AnimElem) (events : List Bool)
    (h : e.watched = false) : runIntersections e events = e := by
  induction events with
  | nil => rfl
  | cons b bs ih =>
      show runIntersections (handleIntersection e b) bs = e
      rw [handleIntersection_unwatched e b h]
      exact ih

/-- Before the first crossing, non-crossing notifications leave the
element in its hidden initial state. -/
theorem runIntersections_all_false (e : AnimElem) (events : List Bool)
    (h : ∀ b ∈ events, b = false) : runIntersections e events = e := by
  induction events with
  | nil => rfl
  | cons b bs ih =>
      have hb : b = false := h b (List.mem_cons_self b bs)
      show runIntersections (handleIntersection e b) bs = e
      rw [hb, handleIntersection_false]
      exact ih (fun x hx => h x (List.mem_cons_of_mem b hx))

/-- C9: for a watched reveal-on-scroll element, the first visibility
crossing (after any number of non-crossing notifications) transitions it
to its resting visible state (`opacity 1`, `translateY(0)`) and detaches
the watch; after that, no further sequence of visibility-crossing events
— scrolling away and back any number of times — ever changes the element
again.  Strictly one-shot per element. -/
theorem animation_one_shot (e : AnimElem) (pre post : List Bool)
    (hpre : ∀ b ∈ pre, b = false) :
    (handleIntersection (runIntersections (observeElem e) pre) true).opacity = "1" ∧
    (handleIntersection (runIntersections (observeElem e) pre) true).transform
      = "translateY(0)" ∧
    (handleIntersection (runIntersections (observeElem e) pre) true).watched = false ∧
    runIntersections (handleIntersection (runIntersections (observeElem e) pre) true) post
      = handleIntersection (runIntersections (observeElem e) pre) true := by
  have hp : runIntersections (observeElem e) pre = observeElem e :=
    runIntersections_all_false _ _ hpre
  rw [hp]
  have hw : (handleIntersection (observeElem e) true).watched = false := by
    simp [handleIntersection, observeElem]
  exact ⟨by simp [handleIntersection, observeElem],
         by simp [handleIntersection, observeElem],
         hw, runIntersections_unwatched _ post hw⟩

/-- A concrete element for the C9 witness. -/
def sampleAnim : AnimElem :=
  { opacity := "", transform := "", transition := "", watched := false }

/-- Witness for C9: two non-crossing notifications, the first crossing,
then a crossing / non-crossing / crossing tail — the element is revealed
by the first crossing and never changes afterwards. -/
theorem animation_one_shot_witness :
    (handleIntersection (runIntersections (observeElem sampleAnim) [false, false])
        true).opacity = "1" ∧
    (handleIntersection (runIntersections (observeElem sampleAnim) [false, false])
        true).transform = "translateY(0)" ∧
    (handleIntersection (runIntersections (observeElem sampleAnim) [false, false])
        true).watched = false ∧
    runIntersections
        (handleIntersection (runIntersections (observeElem sampleAnim) [false, false]) true)
        [true, false, true]
      = handleIntersection (runIntersections (observeElem sampleAnim) [false, false]) true :=
  animation_one_shot sampleAnim [false, false] [true, false, true] (by decide)

end Portfolio
